import Mathlib

/-!
Verification of the auto-illustrator retry orchestrator, generation invoker and
queue estimator.

The TypeScript sources are shallowly embedded:
* strings are `List Char` (`Str`), built from literals via `String.data`;
  JavaScript string indices (UTF-16 code units) are modelled as characters;
* JavaScript numbers are `Int`/`Nat` (the sources only use integral values in
  the modelled paths; `NaN`/`Infinity` do not arise for integral inputs);
* external collaborators (the marker detector `hasImagePrompts`, the insertion
  module, `removeAllMarkers`, the settings-driven regular-expression strippers,
  the LLM call surface) are abstract parameters of the model: the embedded
  functions are faithful to the source for every instantiation of those
  parameters.
-/

/-- Strings of the embedded program: lists of characters. -/
abbrev Str : Type := List Char

/-- Converts a Lean string literal to the embedded string type. -/
def str (s : String) : Str := s.data

/-- Does `s` start with `pat`? (JavaScript `String.prototype.startsWith`.) -/
def startsWithStr : Str → Str → Bool
  | _, [] => true
  | [], _ :: _ => false
  | a :: s, b :: p => a = b && startsWithStr s p

/-- Does `s` contain `pat` at some position? Helper for nonempty `pat`. -/
def auxContains : Str → Str → Bool
  | [], _ => false
  | s@(_ :: rest), pat => startsWithStr s pat || auxContains rest pat

/-- Embedded `s.includes(pat)` of JavaScript. -/
def containsStr (s pat : Str) : Bool := pat.isEmpty || auxContains s pat

/-- ASCII lower-casing of a string (JavaScript `toLowerCase` on the
ASCII fragment used by the sources). -/
def toLowerStr (s : Str) : Str := s.map Char.toLower

/-- Whitespace trimming from the front. -/
def trimLeftStr (s : Str) : Str := s.dropWhile Char.isWhitespace

/-- JavaScript `String.prototype.trim`: drop whitespace at both ends. -/
def trimStr (s : Str) : Str :=
  ((s.dropWhile Char.isWhitespace).reverse.dropWhile Char.isWhitespace).reverse

/-- Splitting on a nonempty separator, JavaScript `String.prototype.split`
semantics (non-overlapping occurrences, left to right). -/
def splitOnGo (sep : Str) : Nat → Str → List Str
  | _, [] => [[]]
  | 0, s => [s]
  | fuel + 1, c :: rest =>
    if startsWithStr (c :: rest) sep && !sep.isEmpty then
      [] :: splitOnGo sep fuel ((c :: rest).drop sep.length)
    else
      match splitOnGo sep fuel rest with
      | [] => [[c]]
      | t :: ts => (c :: t) :: ts

/-- JavaScript `s.split(sep)`.  The fuel argument `s.length` dominates the
number of remaining characters, so the `0, s` fallback is never reached. -/
def splitOnStr (s sep : Str) : List Str :=
  if sep = [] then [s] else splitOnGo sep s.length s

/-- Joins a list of strings with a separator (JavaScript `Array.join`). -/
def joinSep (sep : Str) : List Str → Str
  | [] => []
  | [x] => x
  | x :: xs => x ++ sep ++ joinSep sep xs

/-- Decimal rendering of a natural number, as a `Str`. -/
def natStr (n : Nat) : Str := (Nat.repr n).data

/-!
## Queue estimator (`src/utils/time_utils.ts`, claims C7 and C8)

Embedded from `formatDurationClock` and `estimateRemainingQueueMs`.
-/

/-- Embedded `String(value).padStart(2, '0')` for a natural number. -/
def pad2 (n : Nat) : Str :=
  let s := natStr n
  if s.length ≥ 2 then s else str "0" ++ s

/-- Embedded `Math.max(0, Math.ceil(ms / 1000))` for an integral millisecond count:
the ceiling is `-((-ms) / 1000)` with flooring integer division. -/
def clampCeilSeconds (ms : Int) : Nat := (max 0 (-((-ms) / 1000))).toNat

/-- Embedded `formatDurationClock` of `time_utils.ts`. -/
def formatDurationClock (ms : Int) : Str :=
  let totalSeconds := clampCeilSeconds ms
  let hours := totalSeconds / 3600
  let minutes := (totalSeconds % 3600) / 60
  let seconds := totalSeconds % 60
  if hours > 0 then
    natStr hours ++ str ":" ++ pad2 minutes ++ str ":" ++ pad2 seconds
  else
    natStr minutes ++ str ":" ++ pad2 seconds

/-- Embedded `estimateRemainingQueueMs` of `time_utils.ts`.  `none` models the `null`
average ("unknown") and the `null` return; absent `maxConcurrent` is `none`. -/
def estimateRemainingQueueMs (pendingCountRaw : Int)
    (cooldownRemainingMsRaw : Int) (averageGenerationDurationMs : Option Int)
    (minGenerationIntervalMsRaw : Int) (maxConcurrentRaw : Option Int) :
    Option Int :=
  let pendingCount : Nat := (max 0 pendingCountRaw).toNat
  if pendingCount = 0 then some 0
  else
    match averageGenerationDurationMs with
    | none => none
    | some avg =>
      if avg ≤ 0 then none
      else
        let minGenerationIntervalMs : Nat :=
          (max 0 minGenerationIntervalMsRaw).toNat
        let cooldownRemainingMs : Nat := (max 0 cooldownRemainingMsRaw).toNat
        let maxConcurrent : Nat := (max 1 (maxConcurrentRaw.getD 1)).toNat
        if 0 < minGenerationIntervalMs ∨ maxConcurrent ≤ 1 then
          some ((cooldownRemainingMs : Int) + (pendingCount : Int) * avg +
            ((pendingCount - 1 : Nat) : Int) * (minGenerationIntervalMs : Int))
        else
          let waves := (pendingCount + maxConcurrent - 1) / maxConcurrent
          some ((waves : Int) * avg)

/-!
## Retry orchestrator (`independent_api_prompt_generation.ts`, claims C1-C4, C10)

The per-message tracked state and its operations are embedded as an explicit
state machine over `Option InternalState` (`none` = no tracked state for the
message).  External collaborators and the nondeterminism of a single attempt
are gathered in `AttemptEnv`:

* `mes` is the message text read at the start of the attempt;
* `hasPromptTags` is the value of the external `hasImagePrompts(mes, patterns)`;
* `contextUnavailable` models `SillyTavern.getContext()` returning `null`;
* `cancelDuringGen` models a cancellation request arriving while the
  `generatePromptsForMessage` call is suspended (the only suspension point
  before the abort re-check): the concurrent cancel has already mutated the
  tracked state when the attempt resumes;
* `gen` is the classified outcome of the external `generatePromptsForMessage`;
* `insertion` is the output of the external `insertPromptTagsWithContext`;
* `escape` is the external `escapePromptForPromptTag`.

The model assumes the chat is stable across the operations of one trace: the
message exists and is an assistant message (this was checked when the state
was created, and no orchestrator operation mutates the chat).  Timer liveness
(`timeoutId !== null` with a pending timeout) is modelled by `timerLive`; the
triggered flag of the owned `AbortController` by `aborted`.
-/

/-- Result classification of one generation-and-insertion attempt. -/
inductive AttemptResult
  | success
  | noPrompts
  | error
  | cancelled
deriving DecidableEq, Repr

/-- Status of a tracked per-message retry state. -/
inductive RetryStatus
  | running
  | scheduled
  | failed
  | cancelled
deriving DecidableEq, Repr

/-- Output of the external insertion collaborator
(`insertPromptTagsWithContext`): updated text, how many prompts were inserted
via context matching, and the texts of the suggestions that failed matching. -/
structure InsertionResult where
  updatedText : Str
  insertedCount : Nat
  failedSuggestions : List Str
deriving DecidableEq, Repr

/-- Classified outcome of the external `generatePromptsForMessage` call as
consumed by `tryGenerateAndInsertPromptsOnce`. -/
inductive GenOutcome
  | genSuccess (prompts : List Str)
  | genNoPrompts
  | genError
deriving DecidableEq, Repr

/-- Environment of one attempt: message text, collaborator outputs and the
interleaving choices of the scheduler. -/
structure AttemptEnv where
  mes : Str
  hasPromptTags : Bool
  contextUnavailable : Bool
  cancelDuringGen : Bool
  gen : GenOutcome
  insertion : InsertionResult
  tagTemplate : Str
  escape : Str → Str

/-- Tracked retry state (`InternalState` of the source, with the owned
`AbortController` and `timeoutId` modelled by the two booleans). -/
structure InternalState where
  status : RetryStatus
  retryCount : Nat
  maxRetries : Nat
  nextRetryAt : Option Nat
  aborted : Bool
  timerLive : Bool
deriving DecidableEq, Repr

/-- The fixed backoff table of `independent_api_prompt_generation.ts`. -/
def RETRY_DELAYS_MS : List Nat := [5000, 10000, 20000]

/-- Embedded `RETRY_DELAYS_MS[retryCount] ?? RETRY_DELAYS_MS.at(-1)!`. -/
def delayFor (retryCount : Nat) : Nat :=
  (RETRY_DELAYS_MS.get? retryCount).getD ((RETRY_DELAYS_MS.getLast?).getD 0)

/-- Effect of `cancelIndependentPromptRetries` on the tracked state: clear the
timer, trigger the token, set `cancelled`, clear `nextRetryAt`. -/
def cancelState (s : InternalState) : InternalState :=
  { s with timerLive := false, aborted := true, status := RetryStatus.cancelled,
           nextRetryAt := none }

/-- The fresh state installed by
`ensureIndependentApiPromptsAndGenerateImages`: running, `retryCount = 0`,
`maxRetries = RETRY_DELAYS_MS.length`, new (untriggered) token, no timer. -/
def freshState : InternalState :=
  { status := RetryStatus.running, retryCount := 0,
    maxRetries := RETRY_DELAYS_MS.length, nextRetryAt := none,
    aborted := false, timerLive := false }

/-- First occurrence replacement, JavaScript `String.prototype.replace` with a
plain string pattern. -/
def replaceFirst (s pat repl : Str) : Str :=
  match splitOnStr s pat with
  | [] => s
  | [_] => s
  | x :: rest => x ++ repl ++ joinSep pat rest

/-- Embedded `tryGenerateAndInsertPromptsOnce`: returns the attempt classification, the
message text afterwards (`message.mes`), and whether a save was triggered
(`saveMetadata`).  `aborted` is the state's token flag at entry. -/
def tryGenerateAndInsertPromptsOnce (env : AttemptEnv) (aborted : Bool) :
    AttemptResult × Str × Bool :=
  if aborted then (AttemptResult.cancelled, env.mes, false)
  else if env.hasPromptTags then (AttemptResult.success, env.mes, false)
  else if env.cancelDuringGen then (AttemptResult.cancelled, env.mes, false)
  else
    match env.gen with
    | GenOutcome.genNoPrompts => (AttemptResult.noPrompts, env.mes, false)
    | GenOutcome.genError => (AttemptResult.error, env.mes, false)
    | GenOutcome.genSuccess prompts =>
      if prompts.isEmpty then (AttemptResult.noPrompts, env.mes, false)
      else
        let promptTagTemplate :=
          if containsStr env.tagTemplate (str "{PROMPT}") then env.tagTemplate
          else str "<!--img-prompt=\"{PROMPT}\"-->"
        let finalText := env.insertion.failedSuggestions.foldl
          (fun acc failed => acc ++ str " " ++
            replaceFirst promptTagTemplate (str "{PROMPT}") (env.escape failed))
          env.insertion.updatedText
        let totalInserted := env.insertion.insertedCount +
          env.insertion.failedSuggestions.length
        if totalInserted = 0 then (AttemptResult.error, env.mes, false)
        else (AttemptResult.success, finalText, true)

/-- The attempt classification seen by `runAttempt` when the entry token check
passed: a missing context is recorded as an error and falls through to
scheduling, otherwise the classification of the single attempt. -/
def attemptResult (env : AttemptEnv) : AttemptResult :=
  if env.contextUnavailable then AttemptResult.error
  else (tryGenerateAndInsertPromptsOnce env false).1

/-- Embedded `runAttempt`: one attempt plus its state transition.  Returns the tracked
state afterwards (`none` = removed from the `states` map).  When the attempt
observed a concurrent cancellation the tracked state was already mutated by
`cancelIndependentPromptRetries` before the attempt resumed. -/
def runAttempt (env : AttemptEnv) (now : Nat) (s : InternalState) :
    Option InternalState :=
  if s.aborted then some s
  else
    let s1 := if !env.contextUnavailable && !env.hasPromptTags &&
                 env.cancelDuringGen then cancelState s else s
    match attemptResult env with
    | AttemptResult.cancelled =>
        some { s1 with status := RetryStatus.cancelled }
    | AttemptResult.noPrompts => none
    | AttemptResult.success => none
    | AttemptResult.error =>
      if s1.retryCount ≥ s1.maxRetries then
        some { s1 with status := RetryStatus.failed, nextRetryAt := none,
                       timerLive := false }
      else
        some { s1 with status := RetryStatus.scheduled,
                       nextRetryAt := some (now + delayFor s1.retryCount),
                       timerLive := true }

/-- Embedded `ensureIndependentApiPromptsAndGenerateImages` restricted to its effect on
the tracked state.  When the message already carries prompt tags any existing
state is aborted and deleted and only the image session is started; otherwise
a manual request discards any existing state and runs a fresh attempt, a
non-manual request is a no-op when the existing state is running or scheduled,
and every other case installs `freshState` and runs an attempt. -/
def requestGen (manual : Bool) (env : AttemptEnv) (now : Nat) :
    Option InternalState → Option InternalState
  | none => if env.hasPromptTags then none else runAttempt env now freshState
  | some st =>
      if env.hasPromptTags then none
      else if manual then runAttempt env now freshState
      else if st.status = RetryStatus.running ∨
              st.status = RetryStatus.scheduled then some st
      else runAttempt env now freshState

/-- The retry timer firing: only a live timer fires; the callback increments
`retryCount`, enters `running`, clears `nextRetryAt` and re-attempts. -/
def timerFireOp (env : AttemptEnv) (now : Nat) :
    Option InternalState → Option InternalState
  | none => none
  | some st =>
      if st.timerLive then
        runAttempt env now
          { st with retryCount := st.retryCount + 1,
                    status := RetryStatus.running, nextRetryAt := none,
                    timerLive := false }
      else some st

/-- Embedded `cancelIndependentPromptRetries` on the tracked state (silent or not: the
state effect is the same). -/
def cancelOp : Option InternalState → Option InternalState
  | none => none
  | some st => some (cancelState st)

/-- The orchestrator operations of one message. -/
inductive OrchEvent
  | request (manual : Bool) (env : AttemptEnv) (now : Nat)
  | timerFire (env : AttemptEnv) (now : Nat)
  | cancel
  | cancelAll

/-- One orchestrator operation (`cancelAll` is
`cancelAllIndependentPromptRetries`: cancel silently and clear the map). -/
def stepEvent : OrchEvent → Option InternalState → Option InternalState
  | OrchEvent.request manual env now, s => requestGen manual env now s
  | OrchEvent.timerFire env now, s => timerFireOp env now s
  | OrchEvent.cancel, s => cancelOp s
  | OrchEvent.cancelAll, _ => none

/-- Does `runAttempt` reach the `generatePromptsForMessage` call?  It does
exactly when the entry token check passes, the context is available and the
message does not already carry prompt tags. -/
def attemptCallsInvoker (env : AttemptEnv) (s : InternalState) : Bool :=
  !s.aborted && !env.contextUnavailable && !env.hasPromptTags

/-- Does an orchestrator operation invoke `generatePromptsForMessage`? -/
def callsInvoker : OrchEvent → Option InternalState → Bool
  | OrchEvent.request _ env _, none =>
      !env.hasPromptTags && attemptCallsInvoker env freshState
  | OrchEvent.request manual env _, some st =>
      if env.hasPromptTags then false
      else if manual then attemptCallsInvoker env freshState
      else if st.status = RetryStatus.running ∨
              st.status = RetryStatus.scheduled then false
      else attemptCallsInvoker env freshState
  | OrchEvent.timerFire env _, some st =>
      st.timerLive && attemptCallsInvoker env st
  | OrchEvent.timerFire _ _, none => false
  | OrchEvent.cancel, _ => false
  | OrchEvent.cancelAll, _ => false

/-- Is the operation a new generation request for the message? -/
def isRequestEvent : OrchEvent → Bool
  | OrchEvent.request _ _ _ => true
  | _ => false

/-- Tracked states reachable from the untracked initial state by orchestrator
operations. -/
inductive ReachableState : Option InternalState → Prop
  | init : ReachableState none
  | next (e : OrchEvent) {s : Option InternalState} :
      ReachableState s → ReachableState (stepEvent e s)

/-- Folds a list of operations over a tracked state. -/
def runTrace (evs : List OrchEvent) (s : Option InternalState) :
    Option InternalState :=
  evs.foldl (fun s e => stepEvent e s) s

/-- Does any operation of the trace invoke `generatePromptsForMessage`? -/
def traceCallsInvoker : List OrchEvent → Option InternalState → Bool
  | [], _ => false
  | e :: es, s => callsInvoker e s || traceCallsInvoker es (stepEvent e s)

/-- An attempt environment whose generation call fails (used for concrete
retry traces). -/
def errEnv : AttemptEnv :=
  { mes := [], hasPromptTags := false, contextUnavailable := false,
    cancelDuringGen := false, gen := GenOutcome.genError,
    insertion := { updatedText := [], insertedCount := 0,
                   failedSuggestions := [] },
    tagTemplate := [], escape := fun s => s }

/-- Request, then three timer fires, all attempts failing: the 4th consecutive
failure exhausts `maxRetries = 3`. -/
def fourFailTrace : List OrchEvent :=
  [OrchEvent.request false errEnv 0, OrchEvent.timerFire errEnv 5000,
   OrchEvent.timerFire errEnv 15000, OrchEvent.timerFire errEnv 35000]

/-- No pending timer exists for the tracked state. -/
def NoLiveTimer : Option InternalState → Prop
  | none => True
  | some st => st.timerLive = false

/-- The C3 invariant: the owned token is triggered exactly in the `cancelled`
status, and a live timer implies an untriggered token. -/
def StateInv (st : InternalState) : Prop :=
  (st.aborted = true ↔ st.status = RetryStatus.cancelled) ∧
  (st.timerLive = true → st.aborted = false)

/-!
## Generation invoker (`services/prompt_generation_service.ts`, claims C5, C6, C9)

`removeAllMarkers` (reconciliation module) and the settings-driven prompt-tag
regular expressions are external to this file's sources and appear as abstract
string transformers; the regular expressions `/<img\s+[^>]*>/gi` and
`/\n{3,}/g` of `sanitizeContextText` are embedded concretely.  The three LLM
call shapes are oracles returning either a raw response or an error message.
The field-extraction regular expressions of `parsePromptSuggestions` are
abstracted into `extractBlock` (they only run on blocks that pass the
delimiter checks), as is the code-fence stripper (it only runs on responses
starting with a fence).
-/

/-- Replaces every run of three or more newlines by exactly two, JavaScript
`replace(/\n{3,}/g, '\n\n')`.  `pending` counts newlines read but not yet
emitted. -/
def collapseEmit (pending : Nat) (tail : Str) : Str :=
  (if pending ≥ 3 then ['\n', '\n'] else List.replicate pending '\n') ++ tail

/-- Worker for `collapseBlank`. -/
def collapseGo : Nat → Str → Str
  | pending, [] => collapseEmit pending []
  | pending, c :: rest =>
    if c = '\n' then collapseGo (pending + 1) rest
    else collapseEmit pending (c :: collapseGo 0 rest)

/-- Embedded `result.replace(/\n{3,}/g, '\n\n')`. -/
def collapseBlank (s : Str) : Str := collapseGo 0 s

/-- Matches the regular expression `<img\s+[^>]*>` (case-insensitive on the
tag name) at the head of the string, returning the remainder after the
match. -/
def matchImgTag : Str → Option Str
  | '<' :: c1 :: c2 :: c3 :: rest =>
    if c1.toLower = 'i' && c2.toLower = 'm' && c3.toLower = 'g' then
      match rest with
      | c4 :: rest2 =>
        if c4.isWhitespace then
          match rest2.dropWhile (fun c => c ≠ '>') with
          | '>' :: rest3 => some rest3
          | _ => none
        else none
      | [] => none
    else none
  | _ => none

/-- Worker for `stripImgTags` (fuel bounds the scan length). -/
def stripImgGo : Nat → Str → Str
  | 0, s => s
  | _ + 1, [] => []
  | fuel + 1, c :: rest =>
    match matchImgTag (c :: rest) with
    | some rest2 => stripImgGo fuel rest2
    | none => c :: stripImgGo fuel rest

/-- Embedded `result.replace(/<img\s+[^>]*>/gi, '')`. -/
def stripImgTags (s : Str) : Str := stripImgGo s.length s

/-- Embedded `sanitizeContextText`: external marker removal (`removeAllMarkers`) and
settings-pattern stripping are the abstract `removeMk` and `patternStrip`;
then embedded image tags are removed, runs of three or more newlines are
collapsed, and the result is trimmed. -/
def sanitizeContextText (removeMk patternStrip : Str → Str) (text : Str) :
    Str :=
  trimStr (collapseBlank (stripImgTags (patternStrip (removeMk text))))

/-- A chat message as consumed by `buildUserPromptWithContext`. -/
structure Msg where
  name : Str
  is_user : Bool
  mes : Str

/-- Embedded `msg.name || (msg.is_user ? 'User' : 'Assistant')`. -/
def msgName (m : Msg) : Str :=
  if m.name.isEmpty then (if m.is_user then str "User" else str "Assistant")
  else m.name

/-- Aggregate character budget of the prior-turns window. -/
def MAX_CONTEXT_TOTAL_CHARS : Nat := 20000

/-- Per-turn character budget of the prior-turns window. -/
def MAX_CONTEXT_MESSAGE_CHARS : Nat := 4000

/-- Per-turn truncation with an ellipsis
(`text.substring(0, 4000 - 3) + '...'`). -/
def truncTurn (text : Str) : Str :=
  if text.length > MAX_CONTEXT_MESSAGE_CHARS then
    text.take (MAX_CONTEXT_MESSAGE_CHARS - 3) ++ str "..."
  else text

/-- The `for (let i = recentMessages.length - 1; i >= 0; i--)` accumulation
loop of `buildUserPromptWithContext`: the argument list is the reversed
recent-messages list (most recent first); `selected` is accumulated in
push order. -/
def selectLoop (sanitize : Str → Str) :
    List Msg → Nat → List Str → List Str
  | [], _, selected => selected
  | m :: rest, totalChars, selected =>
    let text := sanitize m.mes
    if text.isEmpty then selectLoop sanitize rest totalChars selected
    else
      let text2 := truncTurn text
      let block := msgName m ++ str ": " ++ text2
      let separatorChars := if selected.length > 0 then 2 else 0
      let nextTotal := totalChars + separatorChars + block.length
      if nextTotal > MAX_CONTEXT_TOTAL_CHARS then
        if selected.length = 0 then
          [block.take (MAX_CONTEXT_TOTAL_CHARS - separatorChars)]
        else selected
      else selectLoop sanitize rest nextTotal (selected ++ [block])

/-- The selected prior-turns window, in chronological order (the source
reverses the push-ordered selection). -/
def buildContextWindow (sanitize : Str → Str) (recentMessages : List Msg) :
    List Str :=
  (selectLoop sanitize recentMessages.reverse 0 []).reverse

/-- Embedded `buildUserPromptWithContext` of the service. -/
def buildUserPromptWithContext (sanitize : Str → Str) (chat : List Msg)
    (currentMessageText : Str) (contextMessageCount : Nat)
    (currentMessageIndex : Option Nat) : Str :=
  let safeCurrentIndex :=
    match currentMessageIndex with
    | some i => if i < chat.length then i else chat.length - 1
    | none => chat.length - 1
  let startIndex := safeCurrentIndex - contextMessageCount
  let recentMessages := (chat.take safeCurrentIndex).drop startIndex
  let contextText :=
    if recentMessages.length > 0 ∧ contextMessageCount > 0 then
      let joined :=
        joinSep (str "\n\n") (buildContextWindow sanitize recentMessages)
      if joined.isEmpty then str "(No previous messages)" else joined
    else str "(No previous messages)"
  str "=== CONTEXT ===\n" ++ contextText ++
    str "\n\n=== CURRENT MESSAGE ===\n" ++ currentMessageText

/-- The fixed transient-failure vocabulary of the context-reduction retry
policy, as listed in `shouldRetryWithReducedContext`. -/
def transientVocab : List Str :=
  [str "502", str "bad gateway", str "504", str "gateway timeout", str "413",
   str "payload too large", str "request entity too large",
   str "context length", str "too many tokens", str "max_tokens",
   str "timeout"]

/-- Embedded `shouldRetryWithReducedContext` of the service. -/
def shouldRetryWithReducedContext (errorMessage : Str) : Bool :=
  let lower := toLowerStr errorMessage
  containsStr lower (str "502") || containsStr lower (str "bad gateway") ||
  containsStr lower (str "504") || containsStr lower (str "gateway timeout") ||
  containsStr lower (str "413") ||
  containsStr lower (str "payload too large") ||
  containsStr lower (str "request entity too large") ||
  containsStr lower (str "context length") ||
  containsStr lower (str "too many tokens") ||
  containsStr lower (str "max_tokens") || containsStr lower (str "timeout")

/-- A parsed prompt suggestion. -/
structure PromptSuggestion where
  text : Str
  insertAfter : Str
  insertBefore : Str
  reasoning : Option Str
deriving DecidableEq, Repr

/-- Embedded `PromptGenerationStatus`. -/
inductive PGStatus
  | success
  | noPrompts
  | error
deriving DecidableEq, Repr

/-- Embedded `PromptGenerationErrorType`. -/
inductive PGErrorType
  | generateRawUnavailable
  | llmCallFailed
  | invalidFormat
deriving DecidableEq, Repr

/-- Embedded `PromptGenerationResult`. -/
structure PromptGenerationResult where
  status : PGStatus
  suggestions : List PromptSuggestion
  errorType : Option PGErrorType
  errorMessage : Option Str
  rawResponse : Option Str
deriving DecidableEq, Repr

/-- Embedded `parsePromptSuggestions`: trim, strip a leading markdown fence (the
stripper itself abstract, applied only when the response starts with one),
split on the start marker, skip blocks that are empty or lack a `TEXT:`
label, cut each block at the end marker, and run the abstract field
extraction (which returns `none` for blocks with missing or empty required
fields). -/
def parsePromptSuggestions (stripFence : Str → Str)
    (extractBlock : Str → Option PromptSuggestion) (llmResponse : Str) :
    List PromptSuggestion :=
  let c0 := trimStr llmResponse
  let cleaned := if startsWithStr c0 (str "```") then stripFence c0 else c0
  (splitOnStr cleaned (str "---PROMPT---")).filterMap fun block =>
    if (trimStr block).isEmpty || !containsStr block (str "TEXT:") then none
    else
      let blockContent := (splitOnStr block (str "---END---")).headD block
      extractBlock blockContent

/-- The response-classification tail of `generatePromptsForMessage` (from the
`parsePromptSuggestions` call onward), including the
`maxPromptsPerMessage || 5` truncation. -/
def classifyResponse (stripFence : Str → Str)
    (extractBlock : Str → Option PromptSuggestion) (maxPromptsRaw : Nat)
    (llmResponse : Str) : PromptGenerationResult :=
  let suggestions := parsePromptSuggestions stripFence extractBlock llmResponse
  if suggestions.isEmpty then
    let cleaned := trimStr llmResponse
    if containsStr cleaned (str "---END---") &&
        !containsStr cleaned (str "---PROMPT---") then
      { status := PGStatus.noPrompts, suggestions := [], errorType := none,
        errorMessage := none, rawResponse := some llmResponse }
    else
      { status := PGStatus.error, suggestions := [],
        errorType := some PGErrorType.invalidFormat,
        errorMessage :=
          some (str "LLM response did not contain any valid prompt blocks"),
        rawResponse := some llmResponse }
  else
    let maxPrompts := if maxPromptsRaw = 0 then 5 else maxPromptsRaw
    if suggestions.length > maxPrompts then
      { status := PGStatus.success, suggestions := suggestions.take maxPrompts,
        errorType := none, errorMessage := none,
        rawResponse := some llmResponse }
    else
      { status := PGStatus.success, suggestions := suggestions,
        errorType := none, errorMessage := none,
        rawResponse := some llmResponse }

/-- The three call shapes of the upstream generation capability.  Each oracle
maps the user prompt text to either a raw response or an error message (the
system prompt is fixed across one `generatePromptsForMessage` run and is
therefore not a parameter). -/
structure LlmOracles where
  generateRawAvailable : Bool
  callMessages : Str → Except Str Str
  callStringPrompt : Str → Except Str Str
  quietAvailable : Bool
  callQuiet : Str → Except Str Str

/-- Embedded `formatLlmCallError`. -/
def formatLlmCallError (method message : Str) : Str :=
  method ++ str ": " ++ message

/-- Embedded `callPromptLlm`: the three-step fallback chain; on total failure the
error joins the per-attempt failure reasons with `" | "`. -/
def callPromptLlm (o : LlmOracles) (promptText : Str) : Except Str Str :=
  match o.callMessages promptText with
  | Except.ok r => Except.ok r
  | Except.error e1 =>
    match o.callStringPrompt promptText with
    | Except.ok r => Except.ok r
    | Except.error e2 =>
      let errs := [formatLlmCallError (str "generateRaw(messages)") e1,
                   formatLlmCallError (str "generateRaw(string)") e2]
      if o.quietAvailable then
        match o.callQuiet promptText with
        | Except.ok r => Except.ok r
        | Except.error e3 =>
          Except.error (joinSep (str " | ")
            (errs ++ [formatLlmCallError (str "generateQuietPrompt") e3]))
      else Except.error (joinSep (str " | ") errs)

/-- Embedded `generatePromptsForMessage`: availability check, prompt construction with
the `contextMessageCount || 10` default, the fallback chain, the
transient-failure reduced-context retry, and response classification.
`sanitizeCfg` sanitizes with the configured detection patterns; the reduced
retry rebuilds the prompt with the default patterns (`sanitizeDef`). -/
def generatePromptsForMessage (o : LlmOracles)
    (sanitizeCfg sanitizeDef : Str → Str) (stripFence : Str → Str)
    (extractBlock : Str → Option PromptSuggestion) (chat : List Msg)
    (messageText : Str) (contextMessageCountRaw maxPromptsRaw : Nat)
    (messageId : Option Nat) : PromptGenerationResult :=
  if !o.generateRawAvailable then
    { status := PGStatus.error, suggestions := [],
      errorType := some PGErrorType.generateRawUnavailable,
      errorMessage :=
        some (str "LLM generation not available (generateRaw missing)"),
      rawResponse := none }
  else
    let contextMessageCount :=
      if contextMessageCountRaw = 0 then 10 else contextMessageCountRaw
    let userPrompt := buildUserPromptWithContext sanitizeCfg chat messageText
      contextMessageCount messageId
    match callPromptLlm o userPrompt with
    | Except.ok llmResponse =>
        classifyResponse stripFence extractBlock maxPromptsRaw llmResponse
    | Except.error errorMessage =>
      if 0 < contextMessageCount ∧
          shouldRetryWithReducedContext errorMessage = true then
        let reducedUserPrompt := buildUserPromptWithContext sanitizeDef chat
          messageText 0 messageId
        match callPromptLlm o reducedUserPrompt with
        | Except.ok llmResponse =>
            classifyResponse stripFence extractBlock maxPromptsRaw llmResponse
        | Except.error secondMessage =>
          { status := PGStatus.error, suggestions := [],
            errorType := some PGErrorType.llmCallFailed,
            errorMessage := some (errorMessage ++
              str " | reduced-context: " ++ secondMessage),
            rawResponse := none }
      else
        { status := PGStatus.error, suggestions := [],
          errorType := some PGErrorType.llmCallFailed,
          errorMessage := some errorMessage, rawResponse := none }

/-- A chain whose first two shapes fail with gateway errors and whose quiet
shape is unavailable. -/
def gatewayFailOracle : LlmOracles :=
  { generateRawAvailable := true,
    callMessages := fun _ => Except.error (str "HTTP 502 from proxy"),
    callStringPrompt := fun _ => Except.error (str "bad gateway"),
    quietAvailable := false,
    callQuiet := fun _ => Except.error (str "unused") }

/-- The blocks the accumulation loop considers, in iteration order (most
recent first): each turn sanitized, empty-sanitized turns skipped, the rest
rendered `name: text` with the per-turn truncation. -/
def blocksFM (sanitize : Str → Str) (l : List Msg) : List Str :=
  l.filterMap fun m =>
    let text := sanitize m.mes
    if text.isEmpty then none
    else some (msgName m ++ str ": " ++ truncTurn text)

/-- The candidate blocks of the prior-turns window, most recent first. -/
def contextBlocks (sanitize : Str → Str) (recentMessages : List Msg) :
    List Str :=
  blocksFM sanitize recentMessages.reverse

/-- Modelled from the spec: greedy accumulation over the remaining blocks
once at least one block is selected (`total` is the running character count):
stop as soon as adding the next block (plus its two-character separator)
would exceed the aggregate budget. -/
def takeFrom : Nat → List Str → List Str
  | _, [] => []
  | total, b :: rest =>
    if total + 2 + b.length > MAX_CONTEXT_TOTAL_CHARS then []
    else b :: takeFrom (total + 2 + b.length) rest

/-- Modelled from the spec sentence "turns are accumulated from most-recent
backward until an aggregate character budget (default 20000) would be
exceeded ... except that at least one turn (truncated to fit) is always
included if any exist": the input is the candidate block list, most recent
first, and the output keeps that order. -/
def windowSpecList : List Str → List Str
  | [] => []
  | b :: rest =>
    if b.length > MAX_CONTEXT_TOTAL_CHARS then [b.take MAX_CONTEXT_TOTAL_CHARS]
    else b :: takeFrom b.length rest

/-- Three consecutive newline characters occur somewhere in the string. -/
def hasTripleNl : Str → Bool
  | a :: b :: c :: rest =>
    (a = '\n' && b = '\n' && c = '\n') || hasTripleNl (b :: c :: rest)
  | _ => false

/-- The whitespace-only prior turn of the C9 counterexample. -/
def wsMsg : Msg := { name := [], is_user := false, mes := str "\n\n\n" }

/-- C7: `estimateRemainingQueueMs` floors `pendingCount` to a non-negative
integer and returns 0 when that is zero; an absent or non-positive average
yields the distinguished `none` ("unknown"), never 0; with a positive clamped
minimum interval or concurrency at most 1 it uses the sequential formula
`cooldown + pending * average + (pending - 1) * minInterval`; otherwise it uses
`ceil(pending / maxConcurrent) * average` with the cooldown omitted (the
final conjuncts verify the ceiling reading of `(p + m - 1) / m` and the
worked example `19000`). -/
theorem C7_estimate_queue_characterization :
    (∀ p cd avg mi mc, p ≤ 0 →
        estimateRemainingQueueMs p cd avg mi mc = some 0)
    ∧ (∀ p cd mi mc, 0 < p →
        estimateRemainingQueueMs p cd none mi mc = none)
    ∧ (∀ p cd avg mi mc, 0 < p → avg ≤ 0 →
        estimateRemainingQueueMs p cd (some avg) mi mc = none)
    ∧ (∀ p cd avg mi mc, 0 < p → 0 < avg → (0 < mi ∨ mc.getD 1 ≤ 1) →
        estimateRemainingQueueMs p cd (some avg) mi mc =
          some (max 0 cd + p * avg + (p - 1) * max 0 mi))
    ∧ (∀ p cd avg mi mc, 0 < p → 0 < avg → mi ≤ 0 → 1 < mc.getD 1 →
        estimateRemainingQueueMs p cd (some avg) mi mc =
          some ((((p.toNat + (mc.getD 1).toNat - 1) /
            (mc.getD 1).toNat : Nat) : Int) * avg))
    ∧ (∀ p m : Nat, 0 < m →
        p ≤ m * ((p + m - 1) / m) ∧ m * ((p + m - 1) / m) < p + m)
    ∧ estimateRemainingQueueMs 3 2000 (some 5000) 1000 (some 3) = some 19000 := by
  refine ⟨?_, ?_, ?_, ?_, ?_, ?_, by decide⟩
  · intro p cd avg mi mc h
    have h0 : (max 0 p).toNat = 0 := by omega
    simp [estimateRemainingQueueMs, h0]
  · intro p cd mi mc h
    have h0 : (max 0 p).toNat ≠ 0 := by omega
    simp [estimateRemainingQueueMs, h0]
  · intro p cd avg mi mc h havg
    have h0 : (max 0 p).toNat ≠ 0 := by omega
    simp [estimateRemainingQueueMs, h0, havg]
  · intro p cd avg mi mc h havg hcond
    have h0 : (max 0 p).toNat ≠ 0 := by omega
    have havg' : ¬ avg ≤ 0 := by omega
    have hcond' : 0 < (max 0 mi).toNat ∨ (max 1 (mc.getD 1)).toNat ≤ 1 := by
      rcases hcond with h1 | h1
      · exact Or.inl (by omega)
      · exact Or.inr (by omega)
    have hcd : ((max 0 cd).toNat : Int) = max 0 cd := by omega
    have hp : ((max 0 p).toNat : Int) = p := by omega
    have hp1 : (((max 0 p).toNat - 1 : Nat) : Int) = p - 1 := by omega
    have hmi : ((max 0 mi).toNat : Int) = max 0 mi := by omega
    simp only [estimateRemainingQueueMs, h0, if_neg h0, if_neg havg',
      if_pos hcond', hcd, hp, hp1, hmi]
    simp
  · intro p cd avg mi mc h havg hmi hmc
    have havg' : ¬ avg ≤ 0 := by omega
    have hp : (max 0 p).toNat = p.toNat := by omega
    have hm : (max 1 (mc.getD 1)).toNat = (mc.getD 1).toNat := by omega
    simp only [estimateRemainingQueueMs, if_neg havg', hp, hm]
    rw [if_neg (show ¬ p.toNat = 0 by omega),
      if_neg (show ¬ (0 < (max 0 mi).toNat ∨ (mc.getD 1).toNat ≤ 1) by
        push_neg
        constructor <;> omega)]
  · intro p m hm
    have h1 := Nat.div_add_mod (p + m - 1) m
    have h2 := Nat.mod_lt (p + m - 1) hm
    omega

/-- C7 witness: the sequential example from the spec, derived from the
characterization theorem. -/
theorem C7_estimate_queue_characterization_witness :
    estimateRemainingQueueMs 3 2000 (some 5000) 1000 (some 3) = some 19000 ∧
    estimateRemainingQueueMs (-2) 5 (some 7) 4 none = some 0 :=
  ⟨by
    have h := C7_estimate_queue_characterization.2.2.2.1 3 2000 5000 1000
      (some 3) (by decide) (by decide) (Or.inl (by decide))
    simpa using h,
   C7_estimate_queue_characterization.1 (-2) 5 (some 7) 4 none (by decide)⟩

/-- C8 counterexample: the input 3599001 ms is strictly below 3600000 ms, yet
`formatDurationClock` already renders the `H:MM:SS` form `1:00:00` (its rounded
duration is 3600 s), so the claimed "`H:MM:SS` for inputs ≥ 3600000 ms and
`M:SS` otherwise" equivalence fails. -/
theorem C8_clock_threshold_counterexample :
    formatDurationClock 3599001 = str "1:00:00" ∧ (3599001 : Int) < 3600000 := by
  constructor
  · decide
  · decide

/-- C8 (amended): `formatDurationClock` clamps negative input to 0 and rounds
up to whole seconds; the `H:MM:SS` form appears exactly when the rounded
duration reaches one hour, which for integral input is exactly `ms > 3599000`
(not `ms ≥ 3600000`); the trailing fields are zero-padded to two digits and
the spec examples evaluate as claimed. -/
theorem C8_format_duration_clock :
    (∀ ms : Int, ms ≤ 0 → formatDurationClock ms = str "0:00")
    ∧ (∀ ms : Int, 0 ≤ ms →
        ms ≤ 1000 * (clampCeilSeconds ms : Int) ∧
        1000 * ((clampCeilSeconds ms : Int) - 1) < ms)
    ∧ (∀ ms : Int, 3600 ≤ clampCeilSeconds ms ↔ 3599000 < ms)
    ∧ (∀ ms : Int, 3600 ≤ clampCeilSeconds ms →
        formatDurationClock ms =
          natStr (clampCeilSeconds ms / 3600) ++ str ":" ++
          pad2 (clampCeilSeconds ms % 3600 / 60) ++ str ":" ++
          pad2 (clampCeilSeconds ms % 60))
    ∧ (∀ ms : Int, clampCeilSeconds ms < 3600 →
        formatDurationClock ms =
          natStr (clampCeilSeconds ms % 3600 / 60) ++ str ":" ++
          pad2 (clampCeilSeconds ms % 60))
    ∧ (∀ n : Nat, n < 100 → (pad2 n).length = 2)
    ∧ formatDurationClock 1 = str "0:01"
    ∧ formatDurationClock 1000 = str "0:01"
    ∧ formatDurationClock 61000 = str "1:01"
    ∧ formatDurationClock 3661000 = str "1:01:01" := by
  refine ⟨?_, ?_, ?_, ?_, ?_, ?_, by decide, by decide, by decide, by decide⟩
  · intro ms h
    have h0 : clampCeilSeconds ms = 0 := by
      simp only [clampCeilSeconds]
      omega
    simp [formatDurationClock, h0]
    decide
  · intro ms h
    simp only [clampCeilSeconds]
    omega
  · intro ms
    simp only [clampCeilSeconds]
    omega
  · intro ms h
    have hh : clampCeilSeconds ms / 3600 > 0 := by omega
    simp only [formatDurationClock, if_pos hh]
  · intro ms h
    have hh : ¬ clampCeilSeconds ms / 3600 > 0 := by omega
    simp only [formatDurationClock, if_neg hh]
  · decide

/-- C8 witness: concrete instances of the amended statement. -/
theorem C8_format_duration_clock_witness :
    formatDurationClock (-7) = str "0:00" ∧
    (3600 ≤ clampCeilSeconds 3599001 ↔ (3599000 : Int) < 3599001) :=
  ⟨C8_format_duration_clock.1 (-7) (by decide),
   C8_format_duration_clock.2.2.1 3599001⟩

/-- C10: a single attempt whose outcome is not `success` leaves the message
text untouched and triggers no save; a save happens only on the success path
with at least one inserted prompt, and the text can change only when a save is
triggered. -/
theorem C10_no_mutation_without_success :
    ∀ (env : AttemptEnv) (aborted : Bool),
      ((tryGenerateAndInsertPromptsOnce env aborted).1 ≠ AttemptResult.success →
        (tryGenerateAndInsertPromptsOnce env aborted).2.1 = env.mes ∧
        (tryGenerateAndInsertPromptsOnce env aborted).2.2 = false)
      ∧ ((tryGenerateAndInsertPromptsOnce env aborted).2.2 = true →
        (tryGenerateAndInsertPromptsOnce env aborted).1 = AttemptResult.success ∧
        1 ≤ env.insertion.insertedCount +
          env.insertion.failedSuggestions.length)
      ∧ ((tryGenerateAndInsertPromptsOnce env aborted).2.1 ≠ env.mes →
        (tryGenerateAndInsertPromptsOnce env aborted).2.2 = true) := by
  intro env aborted
  rcases hg : env.gen with prompts | _ | _ <;>
    simp only [tryGenerateAndInsertPromptsOnce, hg] <;>
    split_ifs <;>
    simp_all <;>
    (rcases hfs : env.insertion.failedSuggestions with _ | ⟨x, xs⟩ <;>
      simp_all) <;>
    omega

/-- C10 witness: an error outcome (no prompts inserted) leaves the text and
save flag untouched. -/
theorem C10_no_mutation_without_success_witness :
    (tryGenerateAndInsertPromptsOnce errEnv false).2.1 = errEnv.mes ∧
    (tryGenerateAndInsertPromptsOnce errEnv false).2.2 = false :=
  (C10_no_mutation_without_success errEnv false).1 (by decide)

/-- C1: when an attempt ends in an error outcome, `runAttempt` schedules the
next retry at `now + delay[retryCount]` while `retryCount < maxRetries` and
enters the terminal `failed` status (timer cleared, no `nextRetryAt`) once
`retryCount ≥ maxRetries`; the delay table is `[5000, 10000, 20000]` with the
last entry reused past its end; the concrete four-failure trace ends `failed`
with no live timer rather than scheduling a fourth retry. -/
theorem C1_error_retry_transition :
    (∀ (st : InternalState) (env : AttemptEnv) (now : Nat),
        st.aborted = false → attemptResult env = AttemptResult.error →
        runAttempt env now st =
          (if st.retryCount < st.maxRetries then
            some { st with status := RetryStatus.scheduled,
                           nextRetryAt := some (now + delayFor st.retryCount),
                           timerLive := true }
          else
            some { st with status := RetryStatus.failed, nextRetryAt := none,
                           timerLive := false }))
    ∧ RETRY_DELAYS_MS = [5000, 10000, 20000]
    ∧ delayFor 0 = 5000 ∧ delayFor 1 = 10000 ∧ delayFor 2 = 20000
    ∧ (∀ n, RETRY_DELAYS_MS.length ≤ n → delayFor n = 20000)
    ∧ runTrace fourFailTrace none =
        some { status := RetryStatus.failed, retryCount := 3, maxRetries := 3,
               nextRetryAt := none, aborted := false, timerLive := false } := by
  refine ⟨?_, by decide, by decide, by decide, by decide, ?_, by decide⟩
  · intro st env now hab herr
    have hguard : (!env.contextUnavailable && !env.hasPromptTags &&
        env.cancelDuringGen) = false := by
      rcases hc : env.contextUnavailable with _ | _
      · rcases ht : env.hasPromptTags with _ | _
        · rcases hd : env.cancelDuringGen with _ | _
          · simp [hc, ht, hd]
          · exfalso
            simp [attemptResult, tryGenerateAndInsertPromptsOnce, hc, ht, hd]
              at herr
        · simp [hc, ht]
      · simp [hc]
    simp only [runAttempt, hab, Bool.false_eq_true, if_false, hguard, herr]
    by_cases hlt : st.retryCount < st.maxRetries
    · rw [if_pos hlt, if_neg (by omega)]
    · rw [if_neg hlt, if_pos (by omega)]
  · intro n hn
    have hnone : RETRY_DELAYS_MS.get? n = none := by
      rw [List.get?_eq_none]
      exact hn
    unfold delayFor
    rw [hnone]
    decide

/-- C1 witness: a first failing attempt on a fresh state schedules the first
retry 5000 ms out. -/
theorem C1_error_retry_transition_witness :
    runAttempt errEnv 0 freshState =
      some { status := RetryStatus.scheduled, retryCount := 0, maxRetries := 3,
             nextRetryAt := some 5000, aborted := false, timerLive := true } := by
  have h := C1_error_retry_transition.1 freshState errEnv 0 (by decide) (by decide)
  rw [h]
  decide

/-- C2 counterexample: a NON-manual request for a message whose tracked state
is terminal `failed` is not a no-op: the failed state is discarded, the
generation invoker is called, and a fresh attempt (retryCount reset to 0) is
started — here its first failure schedules a retry — contradicting
"failed/cancelled transitions back to running only on an explicit manual
request". -/
theorem C2_nonmanual_restart_counterexample :
    requestGen false errEnv 7
        (some { status := RetryStatus.failed, retryCount := 3, maxRetries := 3,
                nextRetryAt := none, aborted := false, timerLive := false }) =
      some { status := RetryStatus.scheduled, retryCount := 0, maxRetries := 3,
             nextRetryAt := some 5007, aborted := false, timerLive := true } ∧
    callsInvoker (OrchEvent.request false errEnv 7)
        (some { status := RetryStatus.failed, retryCount := 3, maxRetries := 3,
                nextRetryAt := none, aborted := false, timerLive := false }) =
      true := by
  constructor
  · decide
  · decide

/-- C2 (amended): a non-manual request is a no-op (state kept, invoker not
called) exactly while the tracked state is running or scheduled; a manual
request discards the existing state and runs a fresh attempt from
`freshState`; and a `failed`/`cancelled` state is likewise discarded and
restarted fresh by ANY new request, manual or not (the fresh state has
`retryCount = 0`, an untriggered token, no timer and `running` status). -/
theorem C2_request_guard :
    (∀ (st : InternalState) (env : AttemptEnv) (now : Nat),
        env.hasPromptTags = false →
        (st.status = RetryStatus.running ∨ st.status = RetryStatus.scheduled) →
        requestGen false env now (some st) = some st ∧
        callsInvoker (OrchEvent.request false env now) (some st) = false)
    ∧ (∀ (st : InternalState) (env : AttemptEnv) (now : Nat),
        env.hasPromptTags = false →
        requestGen true env now (some st) = runAttempt env now freshState)
    ∧ (∀ (st : InternalState) (env : AttemptEnv) (now : Nat),
        env.hasPromptTags = false →
        (st.status = RetryStatus.failed ∨ st.status = RetryStatus.cancelled) →
        requestGen false env now (some st) = runAttempt env now freshState)
    ∧ freshState.retryCount = 0 ∧ freshState.aborted = false
    ∧ freshState.timerLive = false
    ∧ freshState.status = RetryStatus.running := by
  refine ⟨?_, ?_, ?_, by decide, by decide, by decide, by decide⟩
  · intro st env now htags hst
    constructor
    · simp [requestGen, htags, hst]
    · simp [callsInvoker, htags, hst]
  · intro st env now htags
    simp [requestGen, htags]
  · intro st env now htags hst
    have h1 : ¬ (st.status = RetryStatus.running ∨
        st.status = RetryStatus.scheduled) := by
      rcases hst with h | h <;> simp [h]
    simp [requestGen, htags, h1]

/-- C2 witness: a non-manual request on a scheduled state is a no-op. -/
theorem C2_request_guard_witness :
    requestGen false errEnv 3
        (some { status := RetryStatus.scheduled, retryCount := 1,
                maxRetries := 3, nextRetryAt := some 11, aborted := false,
                timerLive := true }) =
      some { status := RetryStatus.scheduled, retryCount := 1, maxRetries := 3,
             nextRetryAt := some 11, aborted := false, timerLive := true } :=
  (C2_request_guard.1 _ errEnv 3 (by decide) (Or.inr (by decide))).1

/-- An operation that is not a new generation request never calls the invoker
from a state without a live timer, and leaves no live timer behind. -/
theorem nonrequestKeepsQuiet (e : OrchEvent) (s : Option InternalState)
    (he : isRequestEvent e = false) (hs : NoLiveTimer s) :
    callsInvoker e s = false ∧ NoLiveTimer (stepEvent e s) := by
  cases e with
  | request manual env now => simp [isRequestEvent] at he
  | timerFire env now =>
    cases s with
    | none => simp [callsInvoker, stepEvent, timerFireOp, NoLiveTimer]
    | some st =>
      have h : st.timerLive = false := hs
      simp [callsInvoker, stepEvent, timerFireOp, h, NoLiveTimer]
  | cancel =>
    cases s with
    | none => simp [callsInvoker, stepEvent, cancelOp, NoLiveTimer]
    | some st =>
      simp [callsInvoker, stepEvent, cancelOp, NoLiveTimer, cancelState]
  | cancelAll => simp [callsInvoker, stepEvent, NoLiveTimer]

/-- C4: after `cancelIndependentPromptRetries` on a scheduled state, no
sequence of further orchestrator operations that contains no new generation
request ever calls `generatePromptsForMessage` for the message again. -/
theorem C4_no_attempt_after_cancel :
    ∀ (st : InternalState) (evs : List OrchEvent),
      st.status = RetryStatus.scheduled →
      (∀ e ∈ evs, isRequestEvent e = false) →
      traceCallsInvoker evs (cancelOp (some st)) = false := by
  intro st evs hst hevs
  have h0 : NoLiveTimer (cancelOp (some st)) := by
    simp [cancelOp, NoLiveTimer, cancelState]
  clear hst
  suffices H : ∀ (l : List OrchEvent) (s : Option InternalState),
      (∀ e ∈ l, isRequestEvent e = false) → NoLiveTimer s →
      traceCallsInvoker l s = false by
    exact H evs _ hevs h0
  intro l
  induction l with
  | nil => intro s _ _; rfl
  | cons e es ih =>
    intro s hl hs
    have h1 := nonrequestKeepsQuiet e s (hl e (by simp)) hs
    simp only [traceCallsInvoker, h1.1, Bool.false_or]
    exact ih _ (fun x hx => hl x (by simp [hx])) h1.2

/-- C4 witness: a timer-fire and a repeated cancel after cancelling a
scheduled state call the invoker zero times. -/
theorem C4_no_attempt_after_cancel_witness :
    traceCallsInvoker [OrchEvent.timerFire errEnv 9, OrchEvent.cancel]
      (cancelOp (some
        { status := RetryStatus.scheduled, retryCount := 0, maxRetries := 3,
          nextRetryAt := some 5000, aborted := false,
          timerLive := true })) = false :=
  C4_no_attempt_after_cancel _ _ (by decide) (by decide)

/-- Embedded `runAttempt` started with an untriggered token yields a state satisfying
the invariant (when it keeps the state tracked at all). -/
theorem runAttemptInv (env : AttemptEnv) (now : Nat) (s t : InternalState)
    (hab : s.aborted = false) (h : runAttempt env now s = some t) :
    StateInv t := by
  obtain ⟨mes, tags, ctxU, cdg, gen, ins, tmpl, esc⟩ := env
  cases ctxU <;> cases tags <;> cases cdg <;> cases gen <;>
    simp only [runAttempt, attemptResult, tryGenerateAndInsertPromptsOnce, hab,
      cancelState, StateInv] at h ⊢ <;>
    split_ifs at h <;>
    simp_all [StateInv, cancelState] <;>
    (try cases h) <;>
    simp_all

/-- Every orchestrator operation preserves the invariant of the tracked
state. -/
theorem stepEventInv (e : OrchEvent) (s : Option InternalState)
    (hs : ∀ st, s = some st → StateInv st) :
    ∀ st, stepEvent e s = some st → StateInv st := by
  cases e with
  | request manual env now =>
    cases s with
    | none =>
      intro st h
      simp only [stepEvent, requestGen] at h
      split at h
      · cases h
      · exact runAttemptInv _ _ _ _ rfl h
    | some st0 =>
      intro st h
      simp only [stepEvent, requestGen] at h
      split at h
      · cases h
      · split at h
        · exact runAttemptInv _ _ _ _ rfl h
        · split at h
          · cases h
            exact hs st0 rfl
          · exact runAttemptInv _ _ _ _ rfl h
  | timerFire env now =>
    cases s with
    | none =>
      intro st h
      simp only [stepEvent, timerFireOp] at h
      cases h
    | some st0 =>
      intro st h
      simp only [stepEvent, timerFireOp] at h
      split at h
      · have hinv := hs st0 rfl
        have hab : st0.aborted = false := hinv.2 (by assumption)
        exact runAttemptInv _ _ _ _ (by simp [hab]) h
      · cases h
        exact hs st0 rfl
  | cancel =>
    cases s with
    | none =>
      intro st h
      simp only [stepEvent, cancelOp] at h
      cases h
    | some st0 =>
      intro st h
      simp only [stepEvent, cancelOp] at h
      cases h
      simp [StateInv, cancelState]
  | cancelAll =>
    intro st h
    simp only [stepEvent] at h
    cases h

/-- The invariant holds of every reachable tracked state. -/
theorem reachableInv (s : Option InternalState) (h : ReachableState s) :
    ∀ st, s = some st → StateInv st := by
  induction h with
  | init => intro st h; cases h
  | next e hr ih => exact stepEventInv e _ ih

/-- C3: in every tracked state reachable by orchestrator operations, the owned
cancellation token has been triggered exactly when the status is
`cancelled`. -/
theorem C3_token_iff_cancelled :
    ∀ (s : Option InternalState) (st : InternalState),
      ReachableState s → s = some st →
      (st.aborted = true ↔ st.status = RetryStatus.cancelled) := by
  intro s st hr heq
  exact (reachableInv s hr st heq).1

/-- C3 witness: the state reached by one failing request is tracked and
satisfies the equivalence. -/
theorem C3_token_iff_cancelled_witness :
    (({ status := RetryStatus.scheduled, retryCount := 0, maxRetries := 3,
        nextRetryAt := some 5000, aborted := false,
        timerLive := true } : InternalState).aborted = true ↔
      ({ status := RetryStatus.scheduled, retryCount := 0, maxRetries := 3,
         nextRetryAt := some 5000, aborted := false,
         timerLive := true } : InternalState).status =
        RetryStatus.cancelled) :=
  C3_token_iff_cancelled
    (stepEvent (OrchEvent.request false errEnv 0) none)
    { status := RetryStatus.scheduled, retryCount := 0, maxRetries := 3,
      nextRetryAt := some 5000, aborted := false, timerLive := true }
    (ReachableState.next (OrchEvent.request false errEnv 0)
      ReachableState.init)
    (by decide)

/-- C5: the transient-failure test is exactly a containment check of the fixed
vocabulary against the lower-cased failure text; when the full chain fails
with message `e1`, the whole chain is retried on the context-free prompt
exactly when that test matches (the `contextMessageCount` gate is always
positive after the `|| 10` default), a failing second attempt yields the
combined message `e1 ++ " | reduced-context: " ++ e2`, and a prompt built
with a zero context window consists of the current message only. -/
theorem C5_reduced_context_retry :
    (∀ e, shouldRetryWithReducedContext e = true ↔
        ∃ v ∈ transientVocab, containsStr (toLowerStr e) v = true)
    ∧ (∀ (o : LlmOracles) (sanCfg sanDef sf : Str → Str)
        (ex : Str → Option PromptSuggestion) (chat : List Msg)
        (msg : Str) (cmcRaw maxP : Nat) (mid : Option Nat) (e1 : Str),
        o.generateRawAvailable = true →
        callPromptLlm o (buildUserPromptWithContext sanCfg chat msg
          (if cmcRaw = 0 then 10 else cmcRaw) mid) = Except.error e1 →
        generatePromptsForMessage o sanCfg sanDef sf ex chat msg cmcRaw maxP
            mid =
          (if shouldRetryWithReducedContext e1 = true then
            (match callPromptLlm o
                (buildUserPromptWithContext sanDef chat msg 0 mid) with
             | Except.ok r => classifyResponse sf ex maxP r
             | Except.error e2 =>
               { status := PGStatus.error, suggestions := [],
                 errorType := some PGErrorType.llmCallFailed,
                 errorMessage :=
                   some (e1 ++ str " | reduced-context: " ++ e2),
                 rawResponse := none })
          else
            { status := PGStatus.error, suggestions := [],
              errorType := some PGErrorType.llmCallFailed,
              errorMessage := some e1, rawResponse := none }))
    ∧ (∀ (san : Str → Str) (chat : List Msg) (msg : Str) (mid : Option Nat),
        buildUserPromptWithContext san chat msg 0 mid =
          str "=== CONTEXT ===\n(No previous messages)\n\n=== CURRENT MESSAGE ===\n"
            ++ msg) := by
  refine ⟨?_, ?_, ?_⟩
  · intro e
    simp only [shouldRetryWithReducedContext, Bool.or_eq_true, transientVocab,
      List.mem_cons, List.not_mem_nil, or_false, exists_eq_or_imp,
      exists_eq_left]
    tauto
  · intro o sanCfg sanDef sf ex chat msg cmcRaw maxP mid e1 hav hchain
    have hpos : 0 < (if cmcRaw = 0 then 10 else cmcRaw) := by split <;> omega
    unfold generatePromptsForMessage
    rw [hav]
    simp only [Bool.not_true, Bool.false_eq_true, if_false]
    rw [hchain]
    simp only [hpos, true_and]
  · intro san chat msg mid
    simp only [buildUserPromptWithContext]
    rw [if_neg (by simp)]
    have hlit : str "=== CONTEXT ===\n" ++ str "(No previous messages)" ++
        str "\n\n=== CURRENT MESSAGE ===\n" =
        str "=== CONTEXT ===\n(No previous messages)\n\n=== CURRENT MESSAGE ===\n" := by
      decide
    rw [hlit]

set_option maxRecDepth 8192 in
/-- C5 witness: with both chain attempts failing on a 502, the service retries
with the empty window and returns the combined two-chain failure message. -/
theorem C5_reduced_context_retry_witness :
    generatePromptsForMessage gatewayFailOracle (fun s => s) (fun s => s)
        (fun s => s) (fun _ => none) [] (str "m") 3 5 none =
      { status := PGStatus.error, suggestions := [],
        errorType := some PGErrorType.llmCallFailed,
        errorMessage := some
          (str "generateRaw(messages): HTTP 502 from proxy | generateRaw(string): bad gateway | reduced-context: generateRaw(messages): HTTP 502 from proxy | generateRaw(string): bad gateway"),
        rawResponse := none } := by
  have h := C5_reduced_context_retry.2.1 gatewayFailOracle (fun s => s)
    (fun s => s) (fun s => s) (fun _ => none) [] (str "m") 3 5 none
    (str "generateRaw(messages): HTTP 502 from proxy | generateRaw(string): bad gateway")
    rfl rfl
  rw [h]
  decide

/-- C6: when zero suggestions parse, the result is `no-prompts` exactly when
the trimmed response contains the end marker and not the start marker, and an
`invalid-format` error otherwise; a response that is exactly the end marker
always classifies as `no-prompts` (whatever the abstract fence stripper and
field extractor do). -/
theorem C6_zero_suggestion_classification :
    (∀ (sf : Str → Str) (ex : Str → Option PromptSuggestion) (maxP : Nat)
        (r : Str),
        parsePromptSuggestions sf ex r = [] →
        classifyResponse sf ex maxP r =
          (if containsStr (trimStr r) (str "---END---") = true ∧
              containsStr (trimStr r) (str "---PROMPT---") = false then
            { status := PGStatus.noPrompts, suggestions := [],
              errorType := none, errorMessage := none, rawResponse := some r }
          else
            { status := PGStatus.error, suggestions := [],
              errorType := some PGErrorType.invalidFormat,
              errorMessage := some
                (str "LLM response did not contain any valid prompt blocks"),
              rawResponse := some r }))
    ∧ (∀ (sf : Str → Str) (ex : Str → Option PromptSuggestion) (maxP : Nat),
        classifyResponse sf ex maxP (str "---END---") =
          { status := PGStatus.noPrompts, suggestions := [],
            errorType := none, errorMessage := none,
            rawResponse := some (str "---END---") }) := by
  constructor
  · intro sf ex maxP r hp
    simp only [classifyResponse, hp, List.isEmpty_nil, if_true]
    by_cases he : containsStr (trimStr r) (str "---END---") = true <;>
      by_cases hs : containsStr (trimStr r) (str "---PROMPT---") = true <;>
      simp_all
  · intro sf ex maxP
    rfl

/-- C6 witness: a zero-suggestion response without the end marker classifies
as an `invalid-format` error. -/
theorem C6_zero_suggestion_classification_witness :
    classifyResponse (fun s => s) (fun _ => none) 5 (str "garbage") =
      { status := PGStatus.error, suggestions := [],
        errorType := some PGErrorType.invalidFormat,
        errorMessage := some
          (str "LLM response did not contain any valid prompt blocks"),
        rawResponse := some (str "garbage") } := by
  have h := C6_zero_suggestion_classification.1 (fun s => s) (fun _ => none) 5
    (str "garbage") (by decide)
  rw [h]
  decide

/-- The accumulation loop with a nonempty selection already in hand is the
greedy budget-bounded extension of that selection. -/
theorem selectLoopAppend (sanitize : Str → Str) :
    ∀ (l : List Msg) (total : Nat) (selected : List Str),
      selected ≠ [] →
      selectLoop sanitize l total selected =
        selected ++ takeFrom total (blocksFM sanitize l) := by
  intro l
  induction l with
  | nil =>
    intro total selected h
    simp [selectLoop, blocksFM, takeFrom]
  | cons m rest ih =>
    intro total selected h
    have hl : selected.length > 0 := List.length_pos.mpr h
    have hl0 : ¬ selected.length = 0 := by omega
    by_cases ht : (sanitize m.mes).isEmpty
    · simp only [selectLoop, blocksFM, List.filterMap_cons, ht, if_pos rfl]
      simpa [blocksFM] using ih total selected h
    · simp only [selectLoop, blocksFM, List.filterMap_cons, ht,
        Bool.false_eq_true, if_false, if_pos hl]
      by_cases hb : total + 2 +
          (msgName m ++ str ": " ++ truncTurn (sanitize m.mes)).length >
          MAX_CONTEXT_TOTAL_CHARS
      · simp only [if_pos hb, if_neg hl0, takeFrom, List.append_nil]
      · simp only [if_neg hb, takeFrom]
        rw [ih _ (selected ++ [msgName m ++ str ": " ++
          truncTurn (sanitize m.mes)]) (by simp)]
        simp [blocksFM, List.append_assoc]

/-- The accumulation loop started empty computes the spec's greedy window
with its always-include-one fallback. -/
theorem selectLoopNil (sanitize : Str → Str) :
    ∀ l : List Msg,
      selectLoop sanitize l 0 [] = windowSpecList (blocksFM sanitize l) := by
  intro l
  induction l with
  | nil => rfl
  | cons m rest ih =>
    by_cases ht : (sanitize m.mes).isEmpty
    · simp only [selectLoop, blocksFM, List.filterMap_cons, ht, if_pos rfl]
      simpa [blocksFM] using ih
    · simp only [selectLoop, blocksFM, List.filterMap_cons, ht,
        Bool.false_eq_true, if_false, List.length_nil, gt_iff_lt,
        Nat.lt_irrefl, Nat.zero_add]
      by_cases hb : MAX_CONTEXT_TOTAL_CHARS <
          (msgName m ++ str ": " ++ truncTurn (sanitize m.mes)).length
      · simp only [if_pos hb, if_true, windowSpecList, gt_iff_lt]
        simp
      · simp only [if_neg hb, List.nil_append]
        rw [selectLoopAppend sanitize rest _ _ (by simp)]
        simp only [windowSpecList, gt_iff_lt, if_neg hb]
        simp [blocksFM]

/-- Dropping the head cannot create a newline triple. -/
theorem hasTripleNl_tail (c : Char) (rest : Str)
    (h : hasTripleNl (c :: rest) = false) : hasTripleNl rest = false := by
  match rest with
  | [] => rfl
  | [x] => rfl
  | x :: y :: t =>
    simp only [hasTripleNl, Bool.or_eq_false_iff] at h
    exact h.2

/-- A triple-free concatenation has a triple-free left part. -/
theorem hasTripleNl_append_left :
    ∀ (s t : Str), hasTripleNl (s ++ t) = false → hasTripleNl s = false := by
  intro s t
  induction s with
  | nil => intro _; rfl
  | cons a s2 ih =>
    intro h
    match s2, ih with
    | [], _ => rfl
    | [b], _ => rfl
    | b :: c :: s4, ih =>
      simp only [List.cons_append, hasTripleNl, Bool.or_eq_false_iff] at h
      simp only [hasTripleNl, Bool.or_eq_false_iff]
      refine ⟨h.1, ?_⟩
      exact ih (by simpa [List.cons_append] using h.2)

/-- A triple-free concatenation has a triple-free right part. -/
theorem hasTripleNl_append_right :
    ∀ (s t : Str), hasTripleNl (s ++ t) = false → hasTripleNl t = false := by
  intro s t
  induction s with
  | nil => intro h; simpa using h
  | cons a s2 ih =>
    intro h
    exact ih (hasTripleNl_tail a (s2 ++ t) (by simpa using h))

/-- Prepending a non-newline character keeps a string triple-free. -/
theorem hasTripleNl_cons0 (c : Char) (t : Str) (hc : c ≠ '\n')
    (ht : hasTripleNl t = false) : hasTripleNl (c :: t) = false := by
  match t with
  | [] => rfl
  | [x] => rfl
  | x :: y :: t2 =>
    rw [hasTripleNl]
    simp [hc, ht]

/-- One newline before a non-newline character keeps a string triple-free. -/
theorem hasTripleNl_cons1 (c : Char) (t : Str) (hc : c ≠ '\n')
    (ht : hasTripleNl t = false) :
    hasTripleNl ('\n' :: c :: t) = false := by
  match t with
  | [] => rfl
  | x :: t2 =>
    rw [hasTripleNl]
    simp [hc, hasTripleNl_cons0 c (x :: t2) hc ht]

/-- Two newlines before a non-newline character keep a string triple-free. -/
theorem hasTripleNl_cons2 (c : Char) (t : Str) (hc : c ≠ '\n')
    (ht : hasTripleNl t = false) :
    hasTripleNl ('\n' :: '\n' :: c :: t) = false := by
  rw [hasTripleNl]
  simp [hc, hasTripleNl_cons1 c t hc ht]

/-- Output of the newline-collapsing pass never contains three consecutive
newlines. -/
theorem collapseGo_noTriple :
    ∀ (s : Str) (p : Nat), hasTripleNl (collapseGo p s) = false := by
  intro s
  induction s with
  | nil =>
    intro p
    by_cases hp : p ≥ 3
    · simp [collapseGo, collapseEmit, hp, hasTripleNl]
    · have hp2 : p = 0 ∨ p = 1 ∨ p = 2 := by omega
      rcases hp2 with rfl | rfl | rfl <;>
        simp [collapseGo, collapseEmit, hasTripleNl, List.replicate]
  | cons c rest ih =>
    intro p
    by_cases hc : c = '\n'
    · subst hc
      rw [collapseGo, if_pos rfl]
      exact ih (p + 1)
    · rw [collapseGo, if_neg hc]
      have ht := ih 0
      by_cases hp : p ≥ 3
      · simp only [collapseEmit, if_pos hp, List.cons_append, List.nil_append]
        exact hasTripleNl_cons2 c _ hc ht
      · have hp2 : p = 0 ∨ p = 1 ∨ p = 2 := by omega
        rcases hp2 with rfl | rfl | rfl <;>
          simp only [collapseEmit, if_neg hp, List.replicate,
            List.cons_append, List.nil_append]
        · exact hasTripleNl_cons0 c _ hc ht
        · exact hasTripleNl_cons1 c _ hc ht
        · exact hasTripleNl_cons2 c _ hc ht

/-- The containment test for three newlines computes `hasTripleNl`. -/
theorem auxContains_nnn (s : Str) :
    auxContains s ['\n', '\n', '\n'] = hasTripleNl s := by
  induction s with
  | nil => rfl
  | cons c rest ih =>
    rw [auxContains, ih]
    match rest with
    | [] => simp [startsWithStr, hasTripleNl]
    | [d] => simp [startsWithStr, hasTripleNl]
    | d :: e :: rest3 =>
      rw [hasTripleNl]
      simp [startsWithStr, Bool.and_assoc]

/-- Embedded `includes("\n\n\n")` computes `hasTripleNl`. -/
theorem containsStr_nnn (x : Str) :
    containsStr x (str "\n\n\n") = hasTripleNl x := by
  have h : str "\n\n\n" = ['\n', '\n', '\n'] := rfl
  rw [containsStr, h]
  simpa using auxContains_nnn x

/-- Trimming preserves triple-freeness (the trimmed string is an inner slice
of the original). -/
theorem trimStr_noTriple (l : Str) (h : hasTripleNl l = false) :
    hasTripleNl (trimStr l) = false := by
  unfold trimStr
  have h1 : hasTripleNl (l.dropWhile Char.isWhitespace) = false := by
    apply hasTripleNl_append_right (l.takeWhile Char.isWhitespace)
    rw [List.takeWhile_append_dropWhile]
    exact h
  set l1 := l.dropWhile Char.isWhitespace
  have hsplit : l1 = (l1.reverse.dropWhile Char.isWhitespace).reverse ++
      (l1.reverse.takeWhile Char.isWhitespace).reverse := by
    conv_lhs => rw [← List.reverse_reverse l1,
      ← List.takeWhile_append_dropWhile (p := Char.isWhitespace)
        (l := l1.reverse)]
    rw [List.reverse_append]
  apply hasTripleNl_append_left _ ((l1.reverse.takeWhile Char.isWhitespace).reverse)
  rw [← hsplit]
  exact h1

/-- C9 (amended): the prior-turns window equals the spec's greedy
most-recent-backward accumulation (with its truncate-to-fit fallback for an
oversized first block) applied to the sanitized, per-turn-truncated candidate
blocks, then emitted in chronological order; at least one turn is included
whenever at least one prior turn has NON-EMPTY sanitized text; single turns
are capped at the 4000-character budget via ellipsis truncation; and the
sanitizer output never contains a run of three newlines. -/
theorem C9_window_refinement :
    (∀ (sanitize : Str → Str) (recent : List Msg),
        buildContextWindow sanitize recent =
          (windowSpecList (contextBlocks sanitize recent)).reverse)
    ∧ (∀ (sanitize : Str → Str) (recent : List Msg),
        contextBlocks sanitize recent ≠ [] →
        buildContextWindow sanitize recent ≠ [])
    ∧ (∀ t : Str, (truncTurn t).length ≤ MAX_CONTEXT_MESSAGE_CHARS)
    ∧ (∀ t : Str, t.length > MAX_CONTEXT_MESSAGE_CHARS →
        truncTurn t = t.take 3997 ++ str "...")
    ∧ (∀ (f g : Str → Str) (s : Str),
        containsStr (sanitizeContextText f g s) (str "\n\n\n") = false) := by
  refine ⟨?_, ?_, ?_, ?_, ?_⟩
  · intro sanitize recent
    unfold buildContextWindow contextBlocks
    rw [selectLoopNil]
  · intro sanitize recent h
    unfold contextBlocks at h
    unfold buildContextWindow
    rw [selectLoopNil]
    rcases hb : blocksFM sanitize recent.reverse with _ | ⟨b, rest⟩
    · exact absurd hb h
    · simp only [windowSpecList]
      split <;> simp
  · intro t
    simp only [truncTurn, MAX_CONTEXT_MESSAGE_CHARS]
    split
    · have h3 : (str "...").length = 3 := rfl
      rw [List.length_append, List.length_take, h3]
      omega
    · omega
  · intro t h
    simp only [truncTurn]
    rw [if_pos h]
    norm_num [MAX_CONTEXT_MESSAGE_CHARS]
  · intro f g s
    rw [containsStr_nnn]
    unfold sanitizeContextText collapseBlank
    apply trimStr_noTriple
    exact collapseGo_noTriple _ 0

/-- C9 counterexample: a prior turn exists, but its sanitized text is empty
(here a turn of three newlines, with the abstract marker and pattern
strippers instantiated at the identity, exactly what the real collaborators
do on a marker-free turn), so the window is empty and the placeholder is
emitted — contradicting "at least one turn is always included whenever any
prior turns exist". -/
theorem C9_empty_sanitize_counterexample :
    ([wsMsg] : List Msg) ≠ [] ∧
    sanitizeContextText (fun s => s) (fun s => s) wsMsg.mes = [] ∧
    buildContextWindow (sanitizeContextText (fun s => s) (fun s => s))
      [wsMsg] = [] ∧
    buildUserPromptWithContext
        (sanitizeContextText (fun s => s) (fun s => s)) [wsMsg, wsMsg]
        (str "current") 10 (some 1) =
      str "=== CONTEXT ===\n(No previous messages)\n\n=== CURRENT MESSAGE ===\ncurrent" := by
  refine ⟨by simp, by decide, by decide, by decide⟩

/-- C9 witness: a turn with nonempty sanitized text yields a nonempty window,
and an oversized turn is truncated with an ellipsis. -/
theorem C9_window_refinement_witness :
    buildContextWindow (fun s => s)
        [{ name := str "A", is_user := false, mes := str "hi" }] ≠ [] ∧
    truncTurn (List.replicate 4001 'x') =
      (List.replicate 4001 'x').take 3997 ++ str "..." :=
  ⟨C9_window_refinement.2.1 (fun s => s)
      [{ name := str "A", is_user := false, mes := str "hi" }] (by decide),
   C9_window_refinement.2.2.2.1 (List.replicate 4001 'x')
      (by rw [List.length_replicate]
          simp only [MAX_CONTEXT_MESSAGE_CHARS]
          decide)⟩
